import Mathlib

/-!
Shallow embedding of the Arobytess backend (file-backed JSON store variant,
`src/main.py`).  Each handler is modelled as a pure function from the persisted
collection (a list of records) and the request parameters to the new persisted
collection together with the HTTP outcome.  The current calendar month
(`get_current_month` in the source) and the model inference score are passed as
explicit parameters; HTTP error statuses are bare numerals (400, 402, 404).
Token balances are integers, prices are rationals (`TOKEN_PRICE = 49.99`), and
Python's `str.lower` is modelled by mapping `Char.toLower` over the characters.
-/

namespace Arobytess

/-- Model of Python `str.lower()`, as the character list of the result. -/
def lowerStr (s : String) : List Char := s.data.map Char.toLower

/-- A user record as stored in `users.json` (`src/main.py`, `register_user`). -/
structure User where
  id : Nat
  name : String
  type : String
  credits : Int
  friends : List String
  tokens : Int
  lastTokenReset : String
deriving DecidableEq, Repr

/-- The duplicate test used by `register_user` and `login_user`:
`u["name"].lower() == user.name.lower() and u["type"] == user.type`. -/
def sameUserKey (name ty : String) (u : User) : Prop :=
  lowerStr u.name = lowerStr name ∧ u.type = ty

instance (name ty : String) : DecidablePred (sameUserKey name ty) := fun u =>
  inferInstanceAs (Decidable (lowerStr u.name = lowerStr name ∧ u.type = ty))

/-- `register_user` (`src/main.py` 364-383): reject a case-insensitive
(name, type) duplicate with status 400, else append a user with credits 0,
tokens 5 and `lastTokenReset` set to the current month. -/
def register_user (users : List User) (name ty month : String) :
    List User × Except Nat User :=
  if ∃ u ∈ users, sameUserKey name ty u then
    (users, Except.error 400)
  else
    let new_user : User :=
      { id := users.length + 1, name := name, type := ty, credits := 0,
        friends := [], tokens := 5, lastTokenReset := month }
    (users ++ [new_user], Except.ok new_user)

/-- `check_and_reset_monthly_tokens` (`src/main.py` 351-360): if the stored
reset month differs from the current month, set tokens to 5 and stamp the
month, reporting `true`; otherwise leave the user unchanged. -/
def check_and_reset_monthly_tokens (current_month : String) (user : User) :
    User × Bool :=
  if user.lastTokenReset ≠ current_month then
    ({ user with tokens := 5, lastTokenReset := current_month }, true)
  else
    (user, false)

/-- `login_user` (`src/main.py` 385-396): scan for the first case-insensitive
(name, type) match, apply the monthly reset check and persist, or 404. -/
def login_user (month name ty : String) : List User → List User × Except Nat User
  | [] => ([], Except.error 404)
  | u :: rest =>
    if sameUserKey name ty u then
      ((check_and_reset_monthly_tokens month u).1 :: rest,
       Except.ok (check_and_reset_monthly_tokens month u).1)
    else
      ((u :: (login_user month name ty rest).1), (login_user month name ty rest).2)

/-- `TOKEN_PRICE = 49.99` (`src/main.py` 458), modelled as a rational. -/
def TOKEN_PRICE : ℚ := 4999 / 100

/-- The body of the `GET /api/users/{id}/tokens` response. -/
structure TokensResp where
  tokens : Int
  lastReset : String
  pricePerToken : ℚ
deriving DecidableEq, Repr

/-- `get_user_tokens` (`src/main.py` 461-477): find the user by id, apply the
monthly reset check and persist, return the balance, or 404. -/
def get_user_tokens (month : String) (uid : Nat) :
    List User → List User × Except Nat TokensResp
  | [] => ([], Except.error 404)
  | u :: rest =>
    if u.id = uid then
      ((check_and_reset_monthly_tokens month u).1 :: rest,
       Except.ok ⟨(check_and_reset_monthly_tokens month u).1.tokens,
                  (check_and_reset_monthly_tokens month u).1.lastTokenReset,
                  TOKEN_PRICE⟩)
    else
      ((u :: (get_user_tokens month uid rest).1), (get_user_tokens month uid rest).2)

/-- The body of the purchase response (`tokens`, `totalCost`). -/
structure PurchaseResp where
  tokens : Int
  totalCost : ℚ
deriving DecidableEq, Repr

/-- The id-scan part of `purchase_tokens`: credit `quantity` tokens to the
first user with the given id, or 404. -/
def purchase_tokens_scan (uid : Nat) (quantity : Int) :
    List User → List User × Except Nat PurchaseResp
  | [] => ([], Except.error 404)
  | u :: rest =>
    if u.id = uid then
      ({ u with tokens := u.tokens + quantity } :: rest,
       Except.ok ⟨u.tokens + quantity, (quantity : ℚ) * TOKEN_PRICE⟩)
    else
      ((u :: (purchase_tokens_scan uid quantity rest).1),
       (purchase_tokens_scan uid quantity rest).2)

/-- `purchase_tokens` (`src/main.py` 480-502): reject `quantity < 1` with
status 400 before any lookup, else credit the tokens and report the cost. -/
def purchase_tokens (users : List User) (uid : Nat) (quantity : Int) :
    List User × Except Nat PurchaseResp :=
  if quantity < 1 then (users, Except.error 400)
  else purchase_tokens_scan uid quantity users

/-- `use_token` (`src/main.py` 505-530): find the user by id, apply the monthly
reset check in memory, then fail with 402 before any write when the balance is
below 1, else debit one token and persist. -/
def use_token (month : String) (uid : Nat) : List User → List User × Except Nat Int
  | [] => ([], Except.error 404)
  | u :: rest =>
    if u.id = uid then
      if (check_and_reset_monthly_tokens month u).1.tokens < 1 then
        (u :: rest, Except.error 402)
      else
        ({ (check_and_reset_monthly_tokens month u).1 with
             tokens := (check_and_reset_monthly_tokens month u).1.tokens - 1 } :: rest,
         Except.ok ((check_and_reset_monthly_tokens month u).1.tokens - 1))
    else
      ((u :: (use_token month uid rest).1), (use_token month uid rest).2)

/-- The hardcoded "detected location" placeholder (`src/main.py` 192, 224). -/
def DETECTED_LOCATION : String := "Bharatpur"

/-- The literal timestamp written by the file-backed alert/report endpoints
(`src/main.py` 197, 203, 229). -/
def FIXED_TIMESTAMP : String := "2024-12-14T00:00:00Z"

/-- The request body of `POST /api/register-alerts`. -/
structure AlertInput where
  farmerName : String
  phoneNumber : String
  cropTypes : String
  alertRadius : Int
deriving DecidableEq, Repr

/-- An alert registration record as stored in `alert_registrations.json`. -/
structure AlertReg where
  farmerName : String
  phoneNumber : String
  cropTypes : String
  alertRadius : Int
  id : Nat
  location : String
  registeredAt : String
  updatedAt : Option String
  isActive : Bool
deriving DecidableEq, Repr

/-- The in-place update `existing_reg.update(registration.model_dump())`
followed by stamping `location` and `updatedAt` (`src/main.py` 194-198). -/
def apply_alert_update (r : AlertInput) (a : AlertReg) : AlertReg :=
  { a with farmerName := r.farmerName, phoneNumber := r.phoneNumber,
           cropTypes := r.cropTypes, alertRadius := r.alertRadius,
           location := DETECTED_LOCATION, updatedAt := some FIXED_TIMESTAMP }

/-- The scan of `register_for_alerts` for an existing registration with the
same phone number; `none` when no record matches. -/
def upsert_alert (r : AlertInput) : List AlertReg → Option (List AlertReg × AlertReg)
  | [] => none
  | a :: rest =>
    if a.phoneNumber = r.phoneNumber then
      some (apply_alert_update r a :: rest, apply_alert_update r a)
    else
      (upsert_alert r rest).map (fun p => (a :: p.1, p.2))

/-- `register_for_alerts` (`src/main.py` 181-216): update the existing record
with the same phone number in place, or append a new active registration with
id `len(alerts) + 1`. -/
def register_for_alerts (alerts : List AlertReg) (r : AlertInput) :
    List AlertReg × AlertReg :=
  match upsert_alert r alerts with
  | some p => p
  | none =>
    let new_reg : AlertReg :=
      { farmerName := r.farmerName, phoneNumber := r.phoneNumber,
        cropTypes := r.cropTypes, alertRadius := r.alertRadius,
        id := alerts.length + 1, location := DETECTED_LOCATION,
        registeredAt := FIXED_TIMESTAMP, updatedAt := none, isActive := true }
    (alerts ++ [new_reg], new_reg)

/-- The request body of `POST /api/report-disease`. -/
structure ReportInput where
  diseaseName : String
  cropType : String
  severity : String
  description : Option String
  location : Option String
deriving DecidableEq, Repr

/-- A disease report record as stored in `disease_reports.json`. -/
structure Report where
  diseaseName : String
  cropType : String
  severity : String
  description : Option String
  id : Nat
  location : String
  reportedAt : String
  status : String
deriving DecidableEq, Repr

/-- `report_disease` (`src/main.py` 219-248): append a report with id
`len(reports) + 1`, the hardcoded location, the literal timestamp and status
`pending_verification`. -/
def report_disease (reports : List Report) (r : ReportInput) :
    List Report × Report :=
  let new_report : Report :=
    { diseaseName := r.diseaseName, cropType := r.cropType,
      severity := r.severity, description := r.description,
      id := reports.length + 1, location := DETECTED_LOCATION,
      reportedAt := FIXED_TIMESTAMP, status := "pending_verification" }
  (reports ++ [new_report], new_report)

/-- Python string comparison (code-point order), used by `sorted` on the
`reportedAt` key. -/
def strLe (a b : String) : Prop := a.data ≤ b.data

instance : DecidableRel strLe := fun a b =>
  inferInstanceAs (Decidable (a.data ≤ b.data))

/-- The descending `reportedAt` order of `sorted(..., reverse=True)`. -/
def reportDesc (a b : Report) : Prop := strLe b.reportedAt a.reportedAt

instance : DecidableRel reportDesc := fun a b =>
  inferInstanceAs (Decidable (strLe b.reportedAt a.reportedAt))

instance : IsTotal Report reportDesc :=
  ⟨fun a b => le_total b.reportedAt.data a.reportedAt.data⟩

instance : IsTrans Report reportDesc :=
  ⟨fun _ _ _ h h' => le_trans h' h⟩

/-- The filter `location.lower() in r["location"].lower()` of
`get_recent_alerts` (`src/main.py` 309). -/
def locMatches (s : String) (r : Report) : Prop :=
  lowerStr s <:+: lowerStr r.location

instance (s : String) : DecidablePred (locMatches s) := fun r =>
  inferInstanceAs (Decidable (lowerStr s <:+: lowerStr r.location))

/-- The claim-side filter of C6: a report matches when the optional location
argument is absent or is a case-insensitive substring of the report's
location (an empty needle matches everything). -/
def locFilter (loc : Option String) (r : Report) : Prop :=
  match loc with
  | none => True
  | some s => locMatches s r

instance (loc : Option String) : DecidablePred (locFilter loc) := fun r =>
  match loc with
  | none => isTrue True.intro
  | some s => inferInstanceAs (Decidable (locMatches s r))

/-- `get_recent_alerts` (`src/main.py` 303-318): optionally filter by
case-insensitive location substring (skipped for a missing or empty
argument, by Python truthiness), sort by `reportedAt` descending, keep 10. -/
def get_recent_alerts (reports : List Report) (loc : Option String) : List Report :=
  let filtered : List Report :=
    match loc with
    | none => reports
    | some s =>
      if s = "" then reports
      else reports.filter (fun r => decide (locMatches s r))
  (List.insertionSort reportDesc filtered).take 10

/-- The post-inference logic of `predict_plant_disease` (`src/main.py`
320-338), as a function of the scalar score: the label, the reported
confidence, and the raw score. -/
def predict_plant_disease (confidence_score : ℚ) : String × ℚ × ℚ :=
  let is_healthy : Bool := decide ((1 : ℚ)/2 ≤ confidence_score)
  ((if is_healthy then "healthy" else "diseased"),
   (if is_healthy then confidence_score else 1 - confidence_score),
   confidence_score)

/-- A product record as stored in `products.json`. -/
structure Product where
  id : Nat
  seller_id : Nat
  seller_name : String
  name : String
  price : ℚ
  description : String
  type : String
  phone : String
  views : Nat
deriving DecidableEq, Repr

/-- `delete_product` (`src/main.py` 564-569): keep every product whose id
differs, write the result back, and always answer with the same success
message. -/
def delete_product (products : List Product) (product_id : Nat) :
    List Product × String :=
  (products.filter (fun p => decide (p.id ≠ product_id)),
   "Product removed successfully")

end Arobytess

deriving instance DecidableEq for Except

namespace Arobytess

/-! ### Helper lemmas: the scans skip a prefix with no match -/

lemma use_token_append (month : String) (uid : Nat) (pre l : List User)
    (h : ∀ v ∈ pre, v.id ≠ uid) :
    use_token month uid (pre ++ l)
      = (pre ++ (use_token month uid l).1, (use_token month uid l).2) := by
  induction pre with
  | nil => simp
  | cons u pre ih =>
    have hu : ¬ u.id = uid := h u (List.mem_cons_self u pre)
    have ih' := ih (fun v hv => h v (List.mem_cons_of_mem u hv))
    simp [use_token, hu, ih']

lemma login_user_append (month name ty : String) (pre l : List User)
    (h : ∀ v ∈ pre, ¬ sameUserKey name ty v) :
    login_user month name ty (pre ++ l)
      = (pre ++ (login_user month name ty l).1, (login_user month name ty l).2) := by
  induction pre with
  | nil => simp
  | cons u pre ih =>
    have hu : ¬ sameUserKey name ty u := h u (List.mem_cons_self u pre)
    have ih' := ih (fun v hv => h v (List.mem_cons_of_mem u hv))
    simp [login_user, hu, ih']

lemma get_user_tokens_append (month : String) (uid : Nat) (pre l : List User)
    (h : ∀ v ∈ pre, v.id ≠ uid) :
    get_user_tokens month uid (pre ++ l)
      = (pre ++ (get_user_tokens month uid l).1, (get_user_tokens month uid l).2) := by
  induction pre with
  | nil => simp
  | cons u pre ih =>
    have hu : ¬ u.id = uid := h u (List.mem_cons_self u pre)
    have ih' := ih (fun v hv => h v (List.mem_cons_of_mem u hv))
    simp [get_user_tokens, hu, ih']

lemma purchase_tokens_scan_append (uid : Nat) (q : Int) (pre l : List User)
    (h : ∀ v ∈ pre, v.id ≠ uid) :
    purchase_tokens_scan uid q (pre ++ l)
      = (pre ++ (purchase_tokens_scan uid q l).1, (purchase_tokens_scan uid q l).2) := by
  induction pre with
  | nil => simp
  | cons u pre ih =>
    have hu : ¬ u.id = uid := h u (List.mem_cons_self u pre)
    have ih' := ih (fun v hv => h v (List.mem_cons_of_mem u hv))
    simp [purchase_tokens_scan, hu, ih']

lemma use_token_single (month : String) (uid : Nat) (u : User)
    (hid : u.id = uid) (hm : u.lastTokenReset = month) :
    use_token month uid [u]
      = if u.tokens < 1 then ([u], Except.error 402)
        else ([{ u with tokens := u.tokens - 1 }], Except.ok (u.tokens - 1)) := by
  simp [use_token, check_and_reset_monthly_tokens, hid, hm]

/-- C1: on a user freshly created by `register_user` (5 tokens, reset month
equal to the current month), `use_token` with no intervening month change and
no purchase succeeds exactly five times — after `k` calls the stored balance is
`5 - k` and the next call returns the remaining balance — and the sixth call
fails with status 402 (PaymentRequired). -/
theorem use_token_fresh_five (users users2 : List User) (nu : User)
    (name ty month : String)
    (hreg : register_user users name ty month = (users2, Except.ok nu))
    (hid : ∀ u ∈ users, u.id ≠ nu.id) :
    (∀ k : Nat, k ≤ 5 →
        (fun s => (use_token month nu.id s).1)^[k] users2
          = users ++ [{ nu with tokens := 5 - (k : Int) }]) ∧
    (∀ k : Nat, k < 5 →
        (use_token month nu.id ((fun s => (use_token month nu.id s).1)^[k] users2)).2
          = Except.ok (4 - (k : Int))) ∧
    (use_token month nu.id ((fun s => (use_token month nu.id s).1)^[5] users2)).2
      = Except.error 402 := by
  unfold register_user at hreg
  split at hreg
  · simp at hreg
  · simp only [Prod.mk.injEq, Except.ok.injEq] at hreg
    obtain ⟨h1, h2⟩ := hreg
    have hnt : nu.tokens = 5 := by rw [← h2]
    have hnm : nu.lastTokenReset = month := by rw [← h2]
    have h1' : users2 = users ++ [nu] := by rw [← h1, h2]
    have hone : ∀ t : Int, 1 ≤ t →
        use_token month nu.id [{ nu with tokens := t }]
          = ([{ nu with tokens := t - 1 }], Except.ok (t - 1)) := by
      intro t htt
      have h1t := use_token_single month nu.id ({ nu with tokens := t }) rfl hnm
      simp only [show ({ nu with tokens := t } : User).tokens = t from rfl] at h1t
      rw [h1t, if_neg (by omega)]
    have hzero : use_token month nu.id [{ nu with tokens := (0 : Int) }]
        = ([{ nu with tokens := (0 : Int) }], Except.error 402) := by
      have h1t := use_token_single month nu.id ({ nu with tokens := (0 : Int) }) rfl hnm
      simp only [show ({ nu with tokens := (0 : Int) } : User).tokens = 0 from rfl] at h1t
      rw [h1t, if_pos (by omega)]
    have hstate : ∀ k : Nat, k ≤ 5 →
        (fun s => (use_token month nu.id s).1)^[k] users2
          = users ++ [{ nu with tokens := 5 - (k : Int) }] := by
      intro k
      induction k with
      | zero =>
        intro _
        have he : ({ nu with tokens := 5 - ((0 : Nat) : Int) }) = nu := by
          rw [show (5 - ((0 : Nat) : Int)) = (5 : Int) by norm_num, ← hnt]
        rw [Function.iterate_zero_apply, h1', he]
      | succ k ih =>
        intro hk
        rw [Function.iterate_succ_apply', ih (by omega)]
        show (use_token month nu.id (users ++ [{ nu with tokens := 5 - (k : Int) }])).1
          = users ++ [{ nu with tokens := 5 - ((k + 1 : Nat) : Int) }]
        rw [use_token_append month nu.id users _ hid,
            hone (5 - (k : Int)) (by omega)]
        show users ++ [{ nu with tokens := (5 - (k : Int)) - 1 }]
          = users ++ [{ nu with tokens := 5 - ((k + 1 : Nat) : Int) }]
        have harith : (5 - (k : Int)) - 1 = 5 - ((k + 1 : Nat) : Int) := by
          push_cast; ring
        rw [harith]
    refine ⟨hstate, ?_, ?_⟩
    · intro k hk
      rw [hstate k (by omega), use_token_append month nu.id users _ hid,
          hone (5 - (k : Int)) (by omega)]
      show Except.ok ((5 - (k : Int)) - 1) = Except.ok (4 - (k : Int))
      congr 1
      omega
    · rw [hstate 5 (by omega),
          show (5 - ((5 : Nat) : Int)) = (0 : Int) by norm_num,
          use_token_append month nu.id users _ hid, hzero]

/-- Witness for C1: the first registered user of an empty store makes five
successful `use_token` calls and the sixth answers 402. -/
theorem use_token_fresh_five_witness :
    (∀ k : Nat, k ≤ 5 →
        (fun s => (use_token "2024-12" 1 s).1)^[k]
            [User.mk 1 "Ram" "farmer" 0 [] 5 "2024-12"]
          = [User.mk 1 "Ram" "farmer" 0 [] (5 - (k : Int)) "2024-12"]) ∧
    (∀ k : Nat, k < 5 →
        (use_token "2024-12" 1
            ((fun s => (use_token "2024-12" 1 s).1)^[k]
              [User.mk 1 "Ram" "farmer" 0 [] 5 "2024-12"])).2
          = Except.ok (4 - (k : Int))) ∧
    (use_token "2024-12" 1
        ((fun s => (use_token "2024-12" 1 s).1)^[5]
          [User.mk 1 "Ram" "farmer" 0 [] 5 "2024-12"])).2
      = Except.error 402 :=
  use_token_fresh_five [] [User.mk 1 "Ram" "farmer" 0 [] 5 "2024-12"]
    (User.mk 1 "Ram" "farmer" 0 [] 5 "2024-12") "Ram" "farmer" "2024-12"
    (by decide) (by simp)

/-- C2: the reset check turns a stored month different from the current one
into a balance of exactly 5 with the month stamped (discarding any prior
balance), and is the identity when the months agree; `login_user` persists this
reset, `get_user_tokens` reports the reset balance 5, and `use_token` resets to
5 before debiting to 4. -/
theorem monthly_reset_sets_five (pre post : List User) (u : User)
    (month name ty : String) (uid : Nat)
    (hpre : ∀ v ∈ pre, ¬ sameUserKey name ty v) (hu : sameUserKey name ty u)
    (hpreid : ∀ v ∈ pre, v.id ≠ uid) (huid : u.id = uid) :
    (u.lastTokenReset ≠ month →
       check_and_reset_monthly_tokens month u
         = ({ u with tokens := 5, lastTokenReset := month }, true)) ∧
    (u.lastTokenReset = month →
       check_and_reset_monthly_tokens month u = (u, false)) ∧
    (u.lastTokenReset ≠ month →
       login_user month name ty (pre ++ u :: post)
         = (pre ++ { u with tokens := 5, lastTokenReset := month } :: post,
            Except.ok { u with tokens := 5, lastTokenReset := month })) ∧
    (u.lastTokenReset = month →
       login_user month name ty (pre ++ u :: post)
         = (pre ++ u :: post, Except.ok u)) ∧
    (u.lastTokenReset ≠ month →
       get_user_tokens month uid (pre ++ u :: post)
         = (pre ++ { u with tokens := 5, lastTokenReset := month } :: post,
            Except.ok ⟨5, month, TOKEN_PRICE⟩)) ∧
    (u.lastTokenReset ≠ month →
       use_token month uid (pre ++ u :: post)
         = (pre ++ { u with tokens := 4, lastTokenReset := month } :: post,
            Except.ok 4)) := by
  refine ⟨?_, ?_, ?_, ?_, ?_, ?_⟩
  · intro h
    simp [check_and_reset_monthly_tokens, h]
  · intro h
    simp [check_and_reset_monthly_tokens, h]
  · intro h
    rw [login_user_append month name ty pre (u :: post) hpre]
    simp [login_user, hu, check_and_reset_monthly_tokens, h]
  · intro h
    rw [login_user_append month name ty pre (u :: post) hpre]
    simp [login_user, hu, check_and_reset_monthly_tokens, h]
  · intro h
    rw [get_user_tokens_append month uid pre (u :: post) hpreid]
    simp [get_user_tokens, huid, check_and_reset_monthly_tokens, h]
  · intro h
    rw [use_token_append month uid pre (u :: post) hpreid]
    simp [use_token, huid, check_and_reset_monthly_tokens, h]

/-- Witness for C2: a user with balance 12 and reset month 2024-11 accessed in
2024-12 is reset to exactly 5 (and `use_token` then debits to 4). -/
theorem monthly_reset_sets_five_witness :
    (("2024-11" : String) ≠ "2024-12" →
       check_and_reset_monthly_tokens "2024-12" (User.mk 1 "Ram" "farmer" 0 [] 12 "2024-11")
         = (User.mk 1 "Ram" "farmer" 0 [] 5 "2024-12", true)) ∧
    (("2024-11" : String) = "2024-12" →
       check_and_reset_monthly_tokens "2024-12" (User.mk 1 "Ram" "farmer" 0 [] 12 "2024-11")
         = (User.mk 1 "Ram" "farmer" 0 [] 12 "2024-11", false)) ∧
    (("2024-11" : String) ≠ "2024-12" →
       login_user "2024-12" "ram" "farmer" [User.mk 1 "Ram" "farmer" 0 [] 12 "2024-11"]
         = ([User.mk 1 "Ram" "farmer" 0 [] 5 "2024-12"],
            Except.ok (User.mk 1 "Ram" "farmer" 0 [] 5 "2024-12"))) ∧
    (("2024-11" : String) = "2024-12" →
       login_user "2024-12" "ram" "farmer" [User.mk 1 "Ram" "farmer" 0 [] 12 "2024-11"]
         = ([User.mk 1 "Ram" "farmer" 0 [] 12 "2024-11"],
            Except.ok (User.mk 1 "Ram" "farmer" 0 [] 12 "2024-11"))) ∧
    (("2024-11" : String) ≠ "2024-12" →
       get_user_tokens "2024-12" 1 [User.mk 1 "Ram" "farmer" 0 [] 12 "2024-11"]
         = ([User.mk 1 "Ram" "farmer" 0 [] 5 "2024-12"],
            Except.ok ⟨5, "2024-12", TOKEN_PRICE⟩)) ∧
    (("2024-11" : String) ≠ "2024-12" →
       use_token "2024-12" 1 [User.mk 1 "Ram" "farmer" 0 [] 12 "2024-11"]
         = ([User.mk 1 "Ram" "farmer" 0 [] 4 "2024-12"],
            Except.ok 4)) :=
  monthly_reset_sets_five [] [] (User.mk 1 "Ram" "farmer" 0 [] 12 "2024-11")
    "2024-12" "ram" "farmer" 1 (by simp) (by decide) (by simp) rfl

/-- C3: `purchase_tokens(id, quantity)` fails with status 400 exactly when
`quantity < 1` (given the user exists); otherwise it adds exactly `quantity`
tokens to that user's balance and reports `totalCost = quantity * TOKEN_PRICE`,
leaving the user's credits and every other user unchanged. -/
theorem purchase_tokens_spec (pre post : List User) (u : User) (uid : Nat) (q : Int)
    (hpre : ∀ v ∈ pre, v.id ≠ uid) (hu : u.id = uid) :
    (q < 1 →
       purchase_tokens (pre ++ u :: post) uid q
         = (pre ++ u :: post, Except.error 400)) ∧
    (1 ≤ q →
       purchase_tokens (pre ++ u :: post) uid q
         = (pre ++ { u with tokens := u.tokens + q } :: post,
            Except.ok ⟨u.tokens + q, (q : ℚ) * TOKEN_PRICE⟩)) := by
  constructor
  · intro hq
    simp [purchase_tokens, hq]
  · intro hq
    have hq' : ¬ q < 1 := not_lt.mpr hq
    unfold purchase_tokens
    rw [if_neg hq', purchase_tokens_scan_append uid q pre (u :: post) hpre]
    simp [purchase_tokens_scan, hu]

/-- Witness for C3 at a concrete state, with quantity 3 (success branch) and
quantity 0 (rejection branch). -/
theorem purchase_tokens_spec_witness :
    (((3 : Int) < 1 →
       purchase_tokens ([] ++ User.mk 1 "Ram" "farmer" 0 [] 5 "2024-12" :: []) 1 3
         = ([] ++ User.mk 1 "Ram" "farmer" 0 [] 5 "2024-12" :: [], Except.error 400)) ∧
     (1 ≤ (3 : Int) →
       purchase_tokens ([] ++ User.mk 1 "Ram" "farmer" 0 [] 5 "2024-12" :: []) 1 3
         = ([] ++ { User.mk 1 "Ram" "farmer" 0 [] 5 "2024-12" with tokens := 5 + 3 } :: [],
            Except.ok ⟨5 + 3, (3 : ℚ) * TOKEN_PRICE⟩))) ∧
    (((0 : Int) < 1 →
       purchase_tokens ([] ++ User.mk 1 "Ram" "farmer" 0 [] 5 "2024-12" :: []) 1 0
         = ([] ++ User.mk 1 "Ram" "farmer" 0 [] 5 "2024-12" :: [], Except.error 400)) ∧
     (1 ≤ (0 : Int) →
       purchase_tokens ([] ++ User.mk 1 "Ram" "farmer" 0 [] 5 "2024-12" :: []) 1 0
         = ([] ++ { User.mk 1 "Ram" "farmer" 0 [] 5 "2024-12" with tokens := 5 + 0 } :: [],
            Except.ok ⟨5 + 0, (0 : ℚ) * TOKEN_PRICE⟩))) :=
  ⟨purchase_tokens_spec [] [] (User.mk 1 "Ram" "farmer" 0 [] 5 "2024-12") 1 3
     (by simp) rfl,
   purchase_tokens_spec [] [] (User.mk 1 "Ram" "farmer" 0 [] 5 "2024-12") 1 0
     (by simp) rfl⟩

/-- C4 counterexample: registering a duplicate (name case-insensitive,
type exact) answers status 400, not 409 as the claim states. -/
theorem register_duplicate_status_counterexample :
    (register_user [User.mk 1 "Ram" "farmer" 0 [] 5 "2024-12"] "ram" "farmer" "2024-12").2
        = Except.error 400 ∧
    (register_user [User.mk 1 "Ram" "farmer" 0 [] 5 "2024-12"] "ram" "farmer" "2024-12").2
        ≠ Except.error 409 := by
  decide

/-- C4 amended: registering a user whose (name, type) pair already exists
(name compared case-insensitively, type exactly) fails with HTTP 400 and leaves
the user collection unchanged; registering the same name with a different type
succeeds and creates a new user. -/
theorem register_duplicate_amended (users : List User) (name ty ty2 month : String)
    (hdup : ∃ u ∈ users, sameUserKey name ty u)
    (hnew : ¬ ∃ u ∈ users, sameUserKey name ty2 u) :
    register_user users name ty month = (users, Except.error 400) ∧
    register_user users name ty2 month
      = (users ++ [User.mk (users.length + 1) name ty2 0 [] 5 month],
         Except.ok (User.mk (users.length + 1) name ty2 0 [] 5 month)) := by
  constructor
  · unfold register_user
    rw [if_pos hdup]
  · unfold register_user
    rw [if_neg hnew]

/-- Witness for C4's amended theorem: "Ram"/farmer exists, so "ram"/farmer is
rejected while "ram"/vet is created. -/
theorem register_duplicate_amended_witness :
    register_user [User.mk 1 "Ram" "farmer" 0 [] 5 "2024-12"] "ram" "farmer" "2024-12"
        = ([User.mk 1 "Ram" "farmer" 0 [] 5 "2024-12"], Except.error 400) ∧
    register_user [User.mk 1 "Ram" "farmer" 0 [] 5 "2024-12"] "ram" "vet" "2024-12"
        = ([User.mk 1 "Ram" "farmer" 0 [] 5 "2024-12",
            User.mk 2 "ram" "vet" 0 [] 5 "2024-12"],
           Except.ok (User.mk 2 "ram" "vet" 0 [] 5 "2024-12")) :=
  register_duplicate_amended [User.mk 1 "Ram" "farmer" 0 [] 5 "2024-12"]
    "ram" "farmer" "vet" "2024-12" (by decide) (by decide)

/-- C7: for every score `s` in `[0,1]`, the classification is "healthy"
exactly when `s ≥ 1/2` and "diseased" exactly when `s < 1/2`; the reported
confidence is `s` for a healthy label and `1 - s` for a diseased one, and the
raw score is `s` itself. -/
theorem predict_threshold_confidence (s : ℚ) (_h0 : 0 ≤ s) (_h1 : s ≤ 1) :
    ((predict_plant_disease s).1 = "healthy" ↔ 1/2 ≤ s) ∧
    ((predict_plant_disease s).1 = "diseased" ↔ s < 1/2) ∧
    (1/2 ≤ s → (predict_plant_disease s).2.1 = s) ∧
    (s < 1/2 → (predict_plant_disease s).2.1 = 1 - s) ∧
    (predict_plant_disease s).2.2 = s := by
  have hne : ("healthy" : String) ≠ "diseased" := by decide
  by_cases hc : (1 : ℚ)/2 ≤ s
  · simp only [predict_plant_disease, hc, not_lt.mpr hc, hne]
    simp [hc, not_lt.mpr hc, hne]
  · simp [predict_plant_disease, hc, not_le.mp hc, hne.symm]
    exact ⟨fun h h' => absurd h' (not_lt.mpr h), fun h h' => absurd h (not_lt.mpr h')⟩

/-- Witness for C7 at the concrete score 3/4. -/
theorem predict_threshold_confidence_witness :
    ((predict_plant_disease (3/4)).1 = "healthy" ↔ 1/2 ≤ (3/4 : ℚ)) ∧
    ((predict_plant_disease (3/4)).1 = "diseased" ↔ (3/4 : ℚ) < 1/2) ∧
    (1/2 ≤ (3/4 : ℚ) → (predict_plant_disease (3/4)).2.1 = 3/4) ∧
    ((3/4 : ℚ) < 1/2 → (predict_plant_disease (3/4)).2.1 = 1 - 3/4) ∧
    (predict_plant_disease (3/4)).2.2 = 3/4 :=
  predict_threshold_confidence (3/4) (by norm_num) (by norm_num)

/-- C10: deleting a product always answers the same success message (also
for a nonexistent id, in which case the collection is unchanged); afterwards no
product with the deleted id remains and every other product is preserved. -/
theorem delete_product_spec (products : List Product) (pid : Nat) :
    (delete_product products pid).2 = "Product removed successfully" ∧
    ((¬ ∃ p ∈ products, p.id = pid) → (delete_product products pid).1 = products) ∧
    (∀ p ∈ (delete_product products pid).1, p.id ≠ pid) ∧
    (∀ p ∈ products, p.id ≠ pid → p ∈ (delete_product products pid).1) := by
  refine ⟨rfl, ?_, ?_, ?_⟩
  · intro h
    apply List.filter_eq_self.mpr
    intro p hp
    simp only [decide_eq_true_eq]
    exact fun heq => h ⟨p, hp, heq⟩
  · intro p hp
    have := (List.mem_filter.mp hp).2
    simpa using this
  · intro p hp hne
    exact List.mem_filter.mpr ⟨hp, by simpa using hne⟩

/-- Witness for C10: deleting id 3 from a two-product store is a no-op with the
standard success message. -/
theorem delete_product_spec_witness :
    (delete_product [Product.mk 1 1 "s" "n" 5 "d" "t" "p" 0,
                     Product.mk 2 1 "s" "m" 6 "d" "t" "p" 0] 3).2
        = "Product removed successfully" ∧
    ((¬ ∃ p ∈ [Product.mk 1 1 "s" "n" 5 "d" "t" "p" 0,
               Product.mk 2 1 "s" "m" 6 "d" "t" "p" 0], p.id = 3) →
       (delete_product [Product.mk 1 1 "s" "n" 5 "d" "t" "p" 0,
                        Product.mk 2 1 "s" "m" 6 "d" "t" "p" 0] 3).1
         = [Product.mk 1 1 "s" "n" 5 "d" "t" "p" 0,
            Product.mk 2 1 "s" "m" 6 "d" "t" "p" 0]) ∧
    (∀ p ∈ (delete_product [Product.mk 1 1 "s" "n" 5 "d" "t" "p" 0,
                            Product.mk 2 1 "s" "m" 6 "d" "t" "p" 0] 3).1, p.id ≠ 3) ∧
    (∀ p ∈ [Product.mk 1 1 "s" "n" 5 "d" "t" "p" 0,
            Product.mk 2 1 "s" "m" 6 "d" "t" "p" 0], p.id ≠ 3 →
       p ∈ (delete_product [Product.mk 1 1 "s" "n" 5 "d" "t" "p" 0,
                            Product.mk 2 1 "s" "m" 6 "d" "t" "p" 0] 3).1) :=
  delete_product_spec
    [Product.mk 1 1 "s" "n" 5 "d" "t" "p" 0, Product.mk 2 1 "s" "m" 6 "d" "t" "p" 0] 3

/-! ### Helper lemmas for the alert upsert scan -/

lemma upsert_alert_not_found (r : AlertInput) (l : List AlertReg)
    (h : ∀ a ∈ l, a.phoneNumber ≠ r.phoneNumber) :
    upsert_alert r l = none := by
  induction l with
  | nil => rfl
  | cons a l ih =>
    have ha : ¬ a.phoneNumber = r.phoneNumber := h a (List.mem_cons_self a l)
    simp [upsert_alert, ha, ih (fun b hb => h b (List.mem_cons_of_mem a hb))]

lemma upsert_alert_found (r : AlertInput) (l : List AlertReg)
    (h : ∃ a ∈ l, a.phoneNumber = r.phoneNumber) :
    ∃ pre a post, l = pre ++ a :: post ∧
      (∀ b ∈ pre, b.phoneNumber ≠ r.phoneNumber) ∧
      a.phoneNumber = r.phoneNumber ∧
      upsert_alert r l
        = some (pre ++ apply_alert_update r a :: post, apply_alert_update r a) := by
  induction l with
  | nil => simp at h
  | cons a l ih =>
    by_cases ha : a.phoneNumber = r.phoneNumber
    · exact ⟨[], a, l, by simp, by simp, ha, by simp [upsert_alert, ha]⟩
    · have h' : ∃ b ∈ l, b.phoneNumber = r.phoneNumber := by
        obtain ⟨b, hb, hbe⟩ := h
        rcases List.mem_cons.mp hb with rfl | hb'
        · exact absurd hbe ha
        · exact ⟨b, hb', hbe⟩
      obtain ⟨pre, b, post, hsplit, hpre, hbe, hup⟩ := ih h'
      refine ⟨a :: pre, b, post, by simp [hsplit], ?_, hbe, ?_⟩
      · intro c hc
        rcases List.mem_cons.mp hc with rfl | hc'
        · exact ha
        · exact hpre c hc'
      · simp [upsert_alert, ha, hup]

/-- C5: `register_for_alerts` upserts by phone number: with a registration
already on file it overwrites that record's mutable fields (farmer name, crop
types, radius) and stamps `updatedAt`, keeping the collection size; with a new
phone number it appends exactly one active record; in both cases the
"at most one registration per phone number" invariant is preserved. -/
theorem register_for_alerts_upsert_invariant (alerts : List AlertReg) (r : AlertInput) :
    ((∃ a ∈ alerts, a.phoneNumber = r.phoneNumber) →
       ∃ pre a post, alerts = pre ++ a :: post ∧
         (∀ b ∈ pre, b.phoneNumber ≠ r.phoneNumber) ∧
         a.phoneNumber = r.phoneNumber ∧
         register_for_alerts alerts r
           = (pre ++ apply_alert_update r a :: post, apply_alert_update r a) ∧
         (register_for_alerts alerts r).1.length = alerts.length) ∧
    ((∀ a ∈ alerts, a.phoneNumber ≠ r.phoneNumber) →
       register_for_alerts alerts r
         = (alerts ++ [AlertReg.mk r.farmerName r.phoneNumber r.cropTypes r.alertRadius
                         (alerts.length + 1) DETECTED_LOCATION FIXED_TIMESTAMP none true],
            AlertReg.mk r.farmerName r.phoneNumber r.cropTypes r.alertRadius
              (alerts.length + 1) DETECTED_LOCATION FIXED_TIMESTAMP none true)) ∧
    ((alerts.map (fun a => a.phoneNumber)).Nodup →
       ((register_for_alerts alerts r).1.map (fun a => a.phoneNumber)).Nodup) := by
  refine ⟨?_, ?_, ?_⟩
  · intro h
    obtain ⟨pre, a, post, hsplit, hpre, hae, hup⟩ := upsert_alert_found r alerts h
    have hreg : register_for_alerts alerts r
        = (pre ++ apply_alert_update r a :: post, apply_alert_update r a) := by
      simp [register_for_alerts, hup]
    refine ⟨pre, a, post, hsplit, hpre, hae, hreg, ?_⟩
    rw [hreg, hsplit]
    simp
  · intro h
    simp [register_for_alerts, upsert_alert_not_found r alerts h]
  · intro hnd
    by_cases h : ∃ a ∈ alerts, a.phoneNumber = r.phoneNumber
    · obtain ⟨pre, a, post, hsplit, hpre, hae, hup⟩ := upsert_alert_found r alerts h
      have hreg : (register_for_alerts alerts r).1
          = pre ++ apply_alert_update r a :: post := by
        simp [register_for_alerts, hup]
      have hmap : (pre ++ apply_alert_update r a :: post).map (fun b => b.phoneNumber)
          = alerts.map (fun b => b.phoneNumber) := by
        rw [hsplit]
        simp [apply_alert_update, hae]
      rw [hreg, hmap]
      exact hnd
    · push_neg at h
      have hreg : (register_for_alerts alerts r).1
          = alerts ++ [AlertReg.mk r.farmerName r.phoneNumber r.cropTypes r.alertRadius
                         (alerts.length + 1) DETECTED_LOCATION FIXED_TIMESTAMP none true] := by
        simp [register_for_alerts, upsert_alert_not_found r alerts h]
      rw [hreg, List.map_append]
      refine List.Nodup.append hnd (by simp) ?_
      intro x hx hmem
      obtain ⟨a, ha, hax⟩ := List.mem_map.mp hx
      have : x = r.phoneNumber := by simpa using hmem
      exact h a ha (by rw [← hax] at this; exact this)

/-- Witness for C5: re-registering phone "981" overwrites the single record,
and registering fresh phone "982" appends one active record. -/
theorem register_for_alerts_upsert_invariant_witness :
    (((∃ a ∈ [AlertReg.mk "f" "981" "rice" 10 1 "Bharatpur" "2024-12-14T00:00:00Z" none true],
         a.phoneNumber = (AlertInput.mk "g" "981" "maize" 20).phoneNumber) →
       ∃ pre a post,
         [AlertReg.mk "f" "981" "rice" 10 1 "Bharatpur" "2024-12-14T00:00:00Z" none true]
           = pre ++ a :: post ∧
         (∀ b ∈ pre, b.phoneNumber ≠ (AlertInput.mk "g" "981" "maize" 20).phoneNumber) ∧
         a.phoneNumber = (AlertInput.mk "g" "981" "maize" 20).phoneNumber ∧
         register_for_alerts
             [AlertReg.mk "f" "981" "rice" 10 1 "Bharatpur" "2024-12-14T00:00:00Z" none true]
             (AlertInput.mk "g" "981" "maize" 20)
           = (pre ++ apply_alert_update (AlertInput.mk "g" "981" "maize" 20) a :: post,
              apply_alert_update (AlertInput.mk "g" "981" "maize" 20) a) ∧
         (register_for_alerts
             [AlertReg.mk "f" "981" "rice" 10 1 "Bharatpur" "2024-12-14T00:00:00Z" none true]
             (AlertInput.mk "g" "981" "maize" 20)).1.length
           = [AlertReg.mk "f" "981" "rice" 10 1 "Bharatpur" "2024-12-14T00:00:00Z" none true].length) ∧
     ((∀ a ∈ [AlertReg.mk "f" "981" "rice" 10 1 "Bharatpur" "2024-12-14T00:00:00Z" none true],
         a.phoneNumber ≠ (AlertInput.mk "g" "981" "maize" 20).phoneNumber) →
       register_for_alerts
           [AlertReg.mk "f" "981" "rice" 10 1 "Bharatpur" "2024-12-14T00:00:00Z" none true]
           (AlertInput.mk "g" "981" "maize" 20)
         = ([AlertReg.mk "f" "981" "rice" 10 1 "Bharatpur" "2024-12-14T00:00:00Z" none true]
              ++ [AlertReg.mk "g" "981" "maize" 20 2 DETECTED_LOCATION FIXED_TIMESTAMP none true],
            AlertReg.mk "g" "981" "maize" 20 2 DETECTED_LOCATION FIXED_TIMESTAMP none true)) ∧
     (([AlertReg.mk "f" "981" "rice" 10 1 "Bharatpur" "2024-12-14T00:00:00Z" none true].map
          (fun a => a.phoneNumber)).Nodup →
       ((register_for_alerts
           [AlertReg.mk "f" "981" "rice" 10 1 "Bharatpur" "2024-12-14T00:00:00Z" none true]
           (AlertInput.mk "g" "981" "maize" 20)).1.map (fun a => a.phoneNumber)).Nodup)) ∧
    (((∃ a ∈ [AlertReg.mk "f" "981" "rice" 10 1 "Bharatpur" "2024-12-14T00:00:00Z" none true],
         a.phoneNumber = (AlertInput.mk "h" "982" "wheat" 15).phoneNumber) →
       ∃ pre a post,
         [AlertReg.mk "f" "981" "rice" 10 1 "Bharatpur" "2024-12-14T00:00:00Z" none true]
           = pre ++ a :: post ∧
         (∀ b ∈ pre, b.phoneNumber ≠ (AlertInput.mk "h" "982" "wheat" 15).phoneNumber) ∧
         a.phoneNumber = (AlertInput.mk "h" "982" "wheat" 15).phoneNumber ∧
         register_for_alerts
             [AlertReg.mk "f" "981" "rice" 10 1 "Bharatpur" "2024-12-14T00:00:00Z" none true]
             (AlertInput.mk "h" "982" "wheat" 15)
           = (pre ++ apply_alert_update (AlertInput.mk "h" "982" "wheat" 15) a :: post,
              apply_alert_update (AlertInput.mk "h" "982" "wheat" 15) a) ∧
         (register_for_alerts
             [AlertReg.mk "f" "981" "rice" 10 1 "Bharatpur" "2024-12-14T00:00:00Z" none true]
             (AlertInput.mk "h" "982" "wheat" 15)).1.length
           = [AlertReg.mk "f" "981" "rice" 10 1 "Bharatpur" "2024-12-14T00:00:00Z" none true].length) ∧
     ((∀ a ∈ [AlertReg.mk "f" "981" "rice" 10 1 "Bharatpur" "2024-12-14T00:00:00Z" none true],
         a.phoneNumber ≠ (AlertInput.mk "h" "982" "wheat" 15).phoneNumber) →
       register_for_alerts
           [AlertReg.mk "f" "981" "rice" 10 1 "Bharatpur" "2024-12-14T00:00:00Z" none true]
           (AlertInput.mk "h" "982" "wheat" 15)
         = ([AlertReg.mk "f" "981" "rice" 10 1 "Bharatpur" "2024-12-14T00:00:00Z" none true]
              ++ [AlertReg.mk "h" "982" "wheat" 15 2 DETECTED_LOCATION FIXED_TIMESTAMP none true],
            AlertReg.mk "h" "982" "wheat" 15 2 DETECTED_LOCATION FIXED_TIMESTAMP none true)) ∧
     (([AlertReg.mk "f" "981" "rice" 10 1 "Bharatpur" "2024-12-14T00:00:00Z" none true].map
          (fun a => a.phoneNumber)).Nodup →
       ((register_for_alerts
           [AlertReg.mk "f" "981" "rice" 10 1 "Bharatpur" "2024-12-14T00:00:00Z" none true]
           (AlertInput.mk "h" "982" "wheat" 15)).1.map (fun a => a.phoneNumber)).Nodup)) :=
  ⟨register_for_alerts_upsert_invariant
     [AlertReg.mk "f" "981" "rice" 10 1 "Bharatpur" "2024-12-14T00:00:00Z" none true]
     (AlertInput.mk "g" "981" "maize" 20),
   register_for_alerts_upsert_invariant
     [AlertReg.mk "f" "981" "rice" 10 1 "Bharatpur" "2024-12-14T00:00:00Z" none true]
     (AlertInput.mk "h" "982" "wheat" 15)⟩

/-- C6: `get_recent_alerts` returns exactly the reports whose location
contains the optional argument as a case-insensitive substring (all reports
when it is absent), as the 10-element prefix of a `reportedAt`-descending
ordering of that filtered set. -/
theorem get_recent_alerts_spec (reports : List Report) (loc : Option String) :
    ∃ l : List Report,
      l.Perm (reports.filter (fun r => decide (locFilter loc r))) ∧
      List.Sorted reportDesc l ∧
      get_recent_alerts reports loc = l.take 10 ∧
      (get_recent_alerts reports loc).length ≤ 10 := by
  have hlen : ∀ m : List Report, (m.take 10).length ≤ 10 := by
    intro m
    rw [List.length_take]
    exact min_le_left _ _
  cases loc with
  | none =>
    refine ⟨List.insertionSort reportDesc reports, ?_,
            List.sorted_insertionSort _ _, rfl, hlen _⟩
    have hf : reports.filter (fun r => decide (locFilter none r)) = reports := by
      apply List.filter_eq_self.mpr
      intro a _
      simp [locFilter]
    rw [hf]
    exact List.perm_insertionSort _ _
  | some s =>
    by_cases hs : s = ""
    · subst hs
      refine ⟨List.insertionSort reportDesc reports, ?_,
              List.sorted_insertionSort _ _, ?_, hlen _⟩
      · have hf : reports.filter (fun r => decide (locFilter (some "") r)) = reports := by
          apply List.filter_eq_self.mpr
          intro a _
          simp only [decide_eq_true_eq]
          show lowerStr "" <:+: lowerStr a.location
          exact List.nil_infix
        rw [hf]
        exact List.perm_insertionSort _ _
      · simp [get_recent_alerts]
    · refine ⟨List.insertionSort reportDesc
                (reports.filter (fun r => decide (locMatches s r))), ?_,
              List.sorted_insertionSort _ _, ?_, hlen _⟩
      · exact List.perm_insertionSort _ _
      · simp [get_recent_alerts, hs]

/-- C8: when `use_token` fails (402 or 404) it performs no write, so the
persisted user list is exactly the pre-call state; moreover a 402 can only
arise when the matched user's stored month already equals the current month
(no monthly reset fired during the call) and the balance is below 1. -/
theorem use_token_error_atomicity (month : String) (uid : Nat)
    (users : List User) (e : Nat)
    (herr : (use_token month uid users).2 = Except.error e) :
    (use_token month uid users).1 = users ∧
    (e = 402 → ∃ pre u post, users = pre ++ u :: post ∧
       (∀ v ∈ pre, v.id ≠ uid) ∧ u.id = uid ∧
       u.lastTokenReset = month ∧ u.tokens < 1) := by
  revert herr
  induction users with
  | nil =>
    intro herr
    refine ⟨rfl, ?_⟩
    intro h402
    simp [use_token] at herr
    omega
  | cons u rest ih =>
    intro herr
    by_cases hu : u.id = uid
    · by_cases hc : (check_and_reset_monthly_tokens month u).1.tokens < 1
      · have heq : use_token month uid (u :: rest) = (u :: rest, Except.error 402) := by
          simp [use_token, hu, hc]
        have hm : u.lastTokenReset = month := by
          by_contra hm
          have h5 : (check_and_reset_monthly_tokens month u).1.tokens = 5 := by
            simp [check_and_reset_monthly_tokens, hm]
          rw [h5] at hc
          omega
        have hid : (check_and_reset_monthly_tokens month u).1 = u := by
          simp [check_and_reset_monthly_tokens, hm]
        refine ⟨by rw [heq], ?_⟩
        intro _
        refine ⟨[], u, rest, rfl, by simp, hu, hm, ?_⟩
        rw [hid] at hc
        exact hc
      · exfalso
        simp [use_token, hu, hc] at herr
    · have heq : use_token month uid (u :: rest)
          = (u :: (use_token month uid rest).1, (use_token month uid rest).2) := by
        simp [use_token, hu]
      rw [heq] at herr
      obtain ⟨ih1, ih2⟩ := ih herr
      refine ⟨by rw [heq, ih1], ?_⟩
      intro h402
      obtain ⟨pre, w, post, hsp, hpre, hw, hwm, hwt⟩ := ih2 h402
      refine ⟨u :: pre, w, post, by simp [hsp], ?_, hw, hwm, hwt⟩
      intro v hv
      rcases List.mem_cons.mp hv with rfl | hv'
      · exact hu
      · exact hpre v hv'

/-- Witness for C8: a matched user with 0 tokens in the current month yields a
402 with the store untouched. -/
theorem use_token_error_atomicity_witness :
    (use_token "2024-12" 1 [User.mk 1 "Ram" "farmer" 0 [] 0 "2024-12"]).1
        = [User.mk 1 "Ram" "farmer" 0 [] 0 "2024-12"] ∧
    ((402 : Nat) = 402 → ∃ pre u post,
       [User.mk 1 "Ram" "farmer" 0 [] 0 "2024-12"] = pre ++ u :: post ∧
       (∀ v ∈ pre, v.id ≠ 1) ∧ u.id = 1 ∧
       u.lastTokenReset = "2024-12" ∧ u.tokens < 1) :=
  use_token_error_atomicity "2024-12" 1 [User.mk 1 "Ram" "farmer" 0 [] 0 "2024-12"]
    402 (by decide)

/-- C9: the file-backed report and alert endpoints always stamp the fixed
literal timestamp "2024-12-14T00:00:00Z" (as `reportedAt`, `registeredAt` or
`updatedAt`), so any two file-backed reports carry equal `reportedAt` values. -/
theorem fixed_timestamp_literal (reports reports2 : List Report) (i i2 : ReportInput)
    (alerts : List AlertReg) (r : AlertInput) :
    (report_disease reports i).2.reportedAt = "2024-12-14T00:00:00Z" ∧
    (report_disease reports i).2.reportedAt = (report_disease reports2 i2).2.reportedAt ∧
    ((∀ a ∈ alerts, a.phoneNumber ≠ r.phoneNumber) →
       (register_for_alerts alerts r).2.registeredAt = "2024-12-14T00:00:00Z") ∧
    ((∃ a ∈ alerts, a.phoneNumber = r.phoneNumber) →
       (register_for_alerts alerts r).2.updatedAt = some "2024-12-14T00:00:00Z") := by
  refine ⟨rfl, rfl, ?_, ?_⟩
  · intro h
    simp [register_for_alerts, upsert_alert_not_found r alerts h, FIXED_TIMESTAMP]
  · intro h
    obtain ⟨pre, a, post, hsplit, hpre, hae, hup⟩ := upsert_alert_found r alerts h
    simp [register_for_alerts, hup, apply_alert_update, FIXED_TIMESTAMP]

/-- Witness for C9: a new registration (phone "982") gets `registeredAt` and an
overwrite (phone "981") gets `updatedAt`, both the fixed literal. -/
theorem fixed_timestamp_literal_witness :
    ((report_disease [] (ReportInput.mk "blight" "tomato" "high" none none)).2.reportedAt
        = "2024-12-14T00:00:00Z" ∧
     (report_disease [] (ReportInput.mk "blight" "tomato" "high" none none)).2.reportedAt
        = (report_disease [] (ReportInput.mk "rust" "wheat" "low" none none)).2.reportedAt ∧
     ((∀ a ∈ [AlertReg.mk "f" "981" "rice" 10 1 "Bharatpur" "2024-12-14T00:00:00Z" none true],
         a.phoneNumber ≠ (AlertInput.mk "h" "982" "wheat" 15).phoneNumber) →
       (register_for_alerts
           [AlertReg.mk "f" "981" "rice" 10 1 "Bharatpur" "2024-12-14T00:00:00Z" none true]
           (AlertInput.mk "h" "982" "wheat" 15)).2.registeredAt = "2024-12-14T00:00:00Z") ∧
     ((∃ a ∈ [AlertReg.mk "f" "981" "rice" 10 1 "Bharatpur" "2024-12-14T00:00:00Z" none true],
         a.phoneNumber = (AlertInput.mk "h" "982" "wheat" 15).phoneNumber) →
       (register_for_alerts
           [AlertReg.mk "f" "981" "rice" 10 1 "Bharatpur" "2024-12-14T00:00:00Z" none true]
           (AlertInput.mk "h" "982" "wheat" 15)).2.updatedAt = some "2024-12-14T00:00:00Z")) ∧
    ((report_disease [] (ReportInput.mk "blight" "tomato" "high" none none)).2.reportedAt
        = "2024-12-14T00:00:00Z" ∧
     (report_disease [] (ReportInput.mk "blight" "tomato" "high" none none)).2.reportedAt
        = (report_disease [] (ReportInput.mk "rust" "wheat" "low" none none)).2.reportedAt ∧
     ((∀ a ∈ [AlertReg.mk "f" "981" "rice" 10 1 "Bharatpur" "2024-12-14T00:00:00Z" none true],
         a.phoneNumber ≠ (AlertInput.mk "g" "981" "maize" 20).phoneNumber) →
       (register_for_alerts
           [AlertReg.mk "f" "981" "rice" 10 1 "Bharatpur" "2024-12-14T00:00:00Z" none true]
           (AlertInput.mk "g" "981" "maize" 20)).2.registeredAt = "2024-12-14T00:00:00Z") ∧
     ((∃ a ∈ [AlertReg.mk "f" "981" "rice" 10 1 "Bharatpur" "2024-12-14T00:00:00Z" none true],
         a.phoneNumber = (AlertInput.mk "g" "981" "maize" 20).phoneNumber) →
       (register_for_alerts
           [AlertReg.mk "f" "981" "rice" 10 1 "Bharatpur" "2024-12-14T00:00:00Z" none true]
           (AlertInput.mk "g" "981" "maize" 20)).2.updatedAt = some "2024-12-14T00:00:00Z")) :=
  ⟨fixed_timestamp_literal [] [] (ReportInput.mk "blight" "tomato" "high" none none)
     (ReportInput.mk "rust" "wheat" "low" none none)
     [AlertReg.mk "f" "981" "rice" 10 1 "Bharatpur" "2024-12-14T00:00:00Z" none true]
     (AlertInput.mk "h" "982" "wheat" 15),
   fixed_timestamp_literal [] [] (ReportInput.mk "blight" "tomato" "high" none none)
     (ReportInput.mk "rust" "wheat" "low" none none)
     [AlertReg.mk "f" "981" "rice" 10 1 "Bharatpur" "2024-12-14T00:00:00Z" none true]
     (AlertInput.mk "g" "981" "maize" 20)⟩

end Arobytess
